import Mathlib

set_option autoImplicit false

/-!
A shallow embedding of the backend of the pay-per-use Interledger demo
(`src/backend/server.js`), covering the `/create-payment` handler, the
`/status/*` polling handler and the `/webhook` handler, together with the
SQLite `payments` table they read and write.

Modelling choices (stated once here):
* JavaScript numbers are `JsNum` = NaN, +Infinity, -Infinity or a
  finite value, the latter an unnormalized exact fraction `Frac` (integer
  numerator over positive natural denominator) with mathematical value
  `Frac.toRat`.  Parsed amounts are carried exactly where the source only
  observes their sign / NaN class (validation, truthiness, expiry sign);
  where IEEE-754 representation error is observable — the minor-unit
  computation `Math.round(parsed * 100)` — the binary64 rounding of
  `Number()` and of the multiplication is modelled explicitly
  (`toDouble64`, roundTiesToEven), and the computations are related to
  `ℚ` by bridge lemmas.
* JSON / JavaScript values are modelled by `JsValue`; property access
  `v?.k` is `JsValue.get` (returning `undefined` on non-objects, which is
  exactly the behaviour of the optional chaining the source uses at every
  access that could land on a non-object), and `a || b` is `jsOr` on JS
  truthiness.
* The remote HTTP response captured by `callApi` is `RemoteResponse`:
  status code, raw headers (name to list of values, as `headers.raw()`),
  and `json? : Option JsValue`, which is `some v` when `JSON.parse`
  succeeded with value `v` and `none` when it threw (the `text` branch of
  `callApi`).
* The database is a list of `PaymentRow` in insertion order; `INSERT`
  appends, `UPDATE ... WHERE local_id = ?` maps over the rows.  SQLite
  compares the bound value with the TEXT `local_id` column without
  coercion, so a non-string bind matches no row (`localIdMatches`).
* `JSON.stringify` of a stored blob is kept abstractly as `StoredBlob`
  (the claims never inspect the serialized text, only whether and with
  what provenance the column changed).
* ToPrimitive coercion of arrays/objects by `Number(...)` is modelled as
  NaN; request bodies in all claims carry primitive amounts.
-/

/-- An exact fraction: integer numerator over natural denominator, not
necessarily reduced.  Every fraction built by this development has a
positive denominator.  Kept unnormalized so that all arithmetic is plain
`Int`/`Nat` computation. -/
structure Frac where
  num : ℤ
  den : ℕ
deriving DecidableEq

/-- The rational value of a fraction. -/
def Frac.toRat (f : Frac) : ℚ := (f.num : ℚ) / (f.den : ℚ)

/-- Fraction with value `n`. -/
def Frac.ofNat (n : ℕ) : Frac := ⟨(n : ℤ), 1⟩

/-- Exact addition of fractions. -/
def Frac.add (a b : Frac) : Frac :=
  ⟨a.num * (b.den : ℤ) + b.num * (a.den : ℤ), a.den * b.den⟩

/-- Exact multiplication of fractions. -/
def Frac.mul (a b : Frac) : Frac := ⟨a.num * b.num, a.den * b.den⟩

/-- Negation. -/
def Frac.neg (a : Frac) : Frac := ⟨-a.num, a.den⟩

/-- Zero test (exact, given a positive denominator). -/
def Frac.isZero (a : Frac) : Bool := a.num == 0

/-- `x <= 0` (exact, given a positive denominator). -/
def Frac.isLeZero (a : Frac) : Bool := a.num ≤ 0

/-- `x > 0` (exact, given a positive denominator). -/
def Frac.isGtZero (a : Frac) : Bool := 0 < a.num

/-- `x < 0` (exact, given a positive denominator). -/
def Frac.isLtZero (a : Frac) : Bool := a.num < 0

/-- Floor of the value of the fraction (`Int.fdiv` is floor division). -/
def Frac.floor (a : Frac) : ℤ := a.num.fdiv (a.den : ℤ)

/-- A JavaScript number: NaN, +Infinity, -Infinity, or a finite value. -/
inductive JsNum where
  | nan : JsNum
  | posInf : JsNum
  | negInf : JsNum
  | finite (f : Frac) : JsNum
deriving DecidableEq

/-- `Number.isNaN`. -/
def JsNum.isNaN : JsNum → Bool
  | .nan => true
  | _ => false

/-- The JS comparison `x <= 0` (false for NaN, true for -Infinity). -/
def JsNum.leZero : JsNum → Bool
  | .nan => false
  | .posInf => false
  | .negInf => true
  | .finite f => f.isLeZero

/-- The JS comparison `x > 0` (false for NaN). -/
def JsNum.gtZero : JsNum → Bool
  | .nan => false
  | .posInf => true
  | .negInf => false
  | .finite f => f.isGtZero

/-- JS multiplication of numbers (used for `parsed * Math.pow(10, 2)`). -/
def JsNum.mul : JsNum → JsNum → JsNum
  | .nan, _ => .nan
  | .posInf, .nan => .nan
  | .negInf, .nan => .nan
  | .finite _, .nan => .nan
  | .posInf, .posInf => .posInf
  | .posInf, .negInf => .negInf
  | .negInf, .posInf => .negInf
  | .negInf, .negInf => .posInf
  | .posInf, .finite f => if f.isZero then .nan else if f.isGtZero then .posInf else .negInf
  | .negInf, .finite f => if f.isZero then .nan else if f.isGtZero then .negInf else .posInf
  | .finite f, .posInf => if f.isZero then .nan else if f.isGtZero then .posInf else .negInf
  | .finite f, .negInf => if f.isZero then .nan else if f.isGtZero then .negInf else .posInf
  | .finite a, .finite b => .finite (a.mul b)

/-- `Math.round`: for finite arguments the floor of x + 1/2 (JS rounds
half towards +Infinity); NaN and infinities pass through. -/
def mathRound : JsNum → JsNum
  | .nan => .nan
  | .posInf => .posInf
  | .negInf => .negInf
  | .finite f => .finite ⟨(f.add ⟨1, 2⟩).floor, 1⟩

/-- A JavaScript/JSON value.  `undefined` stands both for the literal and
for the result of reading an absent property. -/
inductive JsValue where
  | null : JsValue
  | undefined : JsValue
  | bool (b : Bool) : JsValue
  | num (n : JsNum) : JsValue
  | str (s : String) : JsValue
  | arr (elems : List JsValue) : JsValue
  | obj (fields : List (String × JsValue)) : JsValue

/-- JS truthiness: null, undefined, false, NaN, 0, and "" are falsy;
every object and array is truthy. -/
def JsValue.truthy : JsValue → Bool
  | .null => false
  | .undefined => false
  | .bool b => b
  | .num .nan => false
  | .num (.finite f) => !f.isZero
  | .num _ => true
  | .str s => !(s == "")
  | .arr _ => true
  | .obj _ => true

/-- Property read `v?.k`: the field value on an object that has the key,
`undefined` otherwise.  The source guards every chained access that could
land on null/undefined with `?.`, which short-circuits to undefined, and
reading an absent property of an object is undefined; both are the
`.undefined` result here. -/
def JsValue.get (v : JsValue) (k : String) : JsValue :=
  match v with
  | .obj fields =>
    match fields.lookup k with
    | some w => w
    | none => .undefined
  | _ => .undefined

/-- JS `a || b`. -/
def jsOr (a b : JsValue) : JsValue := if a.truthy then a else b

/-- Decimal digit characters to the natural number they denote. -/
def digitsToNat (cs : List Char) : Nat :=
  cs.foldl (fun a c => a * 10 + (c.toNat - 48)) 0

/-- Non-empty and all decimal digits. -/
def allDigits (cs : List Char) : Bool := !cs.isEmpty && cs.all (·.isDigit)

/-- Split a character list at the first character satisfying `p`; the
separator is dropped, `none` when absent. -/
def splitOnChar (cs : List Char) (p : Char → Bool) :
    List Char × Option (List Char) :=
  match cs with
  | [] => ([], none)
  | c :: rest =>
    if p c then ([], some rest)
    else
      let (a, b) := splitOnChar rest p
      (c :: a, b)

/-- The mantissa of a JS decimal literal: `digits`, `digits.digits`,
`.digits` or `digits.` (at least one digit overall). -/
def parseMantissa (cs : List Char) : Option Frac :=
  let (ip, rest) := splitOnChar cs (· == '.')
  match rest with
  | none => if allDigits ip then some ⟨(digitsToNat ip : ℤ), 1⟩ else none
  | some fp =>
    if ip.all (·.isDigit) && fp.all (·.isDigit) && (!ip.isEmpty || !fp.isEmpty) then
      some ⟨(digitsToNat ip : ℤ) * (10 : ℤ) ^ fp.length + (digitsToNat fp : ℤ),
            10 ^ fp.length⟩
    else none

/-- The exponent part of a JS decimal literal: optional sign, then digits. -/
def parseExpPart (cs : List Char) : Option ℤ :=
  match cs with
  | '+' :: ds => if allDigits ds then some ((digitsToNat ds : ℤ)) else none
  | '-' :: ds => if allDigits ds then some (-(digitsToNat ds : ℤ)) else none
  | ds => if allDigits ds then some ((digitsToNat ds : ℤ)) else none

/-- Scale a fraction by `10 ^ e` for an integer exponent `e`. -/
def Frac.scalePow10 (f : Frac) (e : ℤ) : Frac :=
  if 0 ≤ e then ⟨f.num * (10 : ℤ) ^ e.toNat, f.den⟩
  else ⟨f.num, f.den * 10 ^ (-e).toNat⟩

/-- An unsigned JS decimal literal with optional exponent. -/
def parseUnsignedDecimal (cs : List Char) : Option Frac :=
  let (m, e) := splitOnChar cs (fun c => c == 'e' || c == 'E')
  match e with
  | none => parseMantissa m
  | some ex =>
    match parseMantissa m, parseExpPart ex with
    | some mf, some ev => some (mf.scalePow10 ev)
    | _, _ => none

/-- Value of a digit character in base `b` (hex letters allowed). -/
def digitValIn (b : Nat) (c : Char) : Option Nat :=
  let v :=
    if c.isDigit then some (c.toNat - 48)
    else if 'a' ≤ c && c ≤ 'f' then some (c.toNat - 87)
    else if 'A' ≤ c && c ≤ 'F' then some (c.toNat - 55)
    else none
  match v with
  | some w => if w < b then some w else none
  | none => none

/-- Digits in base `b` to a natural number; `none` on empty or bad digit. -/
def parseBaseNat (b : Nat) (cs : List Char) : Option Nat :=
  if cs.isEmpty then none
  else cs.foldl (fun acc c =>
    match acc, digitValIn b c with
    | some a, some d => some (a * b + d)
    | _, _ => none) (some 0)

/-- A signed decimal literal or (signed) `Infinity`, as in `Number(string)`. -/
def signedDecimal (t : List Char) : JsNum :=
  let sgnNeg : Bool := match t with | '-' :: _ => true | _ => false
  let u : List Char := match t with | '-' :: r => r | '+' :: r => r | r => r
  if u = "Infinity".data then (if sgnNeg then .negInf else .posInf)
  else
    match parseUnsignedDecimal u with
    | some f => .finite (if sgnNeg then f.neg else f)
    | none => .nan

/-- Trim leading and trailing whitespace from a character list. -/
def trimChars (cs : List Char) : List Char :=
  ((cs.dropWhile Char.isWhitespace).reverse.dropWhile Char.isWhitespace).reverse

/-- JS `Number(string)`: trim whitespace, "" is 0, radix-prefixed integer
literals (0x/0o/0b), else signed decimal / Infinity, else NaN.  (The
exotic Unicode space characters JS would also trim do not occur in the
claims.) -/
def strToNumber (s : String) : JsNum :=
  let t := trimChars s.data
  match t with
  | [] => .finite ⟨0, 1⟩
  | '0' :: x :: rest =>
    if x == 'x' || x == 'X' then
      match parseBaseNat 16 rest with
      | some n => .finite (Frac.ofNat n)
      | none => .nan
    else if x == 'o' || x == 'O' then
      match parseBaseNat 8 rest with
      | some n => .finite (Frac.ofNat n)
      | none => .nan
    else if x == 'b' || x == 'B' then
      match parseBaseNat 2 rest with
      | some n => .finite (Frac.ofNat n)
      | none => .nan
    else signedDecimal t
  | _ => signedDecimal t

/-- JS `Number(value)` on the values a JSON request body can carry.
Object/array ToPrimitive coercion is modelled as NaN (see header note). -/
def jsToNumber : JsValue → JsNum
  | .null => .finite ⟨0, 1⟩
  | .undefined => .nan
  | .bool b => .finite ⟨if b then 1 else 0, 1⟩
  | .num n => n
  | .str s => strToNumber s
  | .arr _ => .nan
  | .obj _ => .nan

/-- Left-pad a numeral to two digits. -/
def pad2 (n : Nat) : String := if n < 10 then "0" ++ Nat.repr n else Nat.repr n

/-- Left-pad a numeral to three digits. -/
def pad3 (n : Nat) : String :=
  if n < 10 then "00" ++ Nat.repr n
  else if n < 100 then "0" ++ Nat.repr n
  else Nat.repr n

/-- Left-pad a numeral to four digits. -/
def pad4 (n : Nat) : String :=
  if n < 10 then "000" ++ Nat.repr n
  else if n < 100 then "00" ++ Nat.repr n
  else if n < 1000 then "0" ++ Nat.repr n
  else Nat.repr n

/-- Proleptic Gregorian date (year, month, day) of a day count since
1970-01-01 (the standard era-based civil-from-days computation). -/
def civilFromDays (z : Nat) : Nat × Nat × Nat :=
  let w := z + 719468
  let era := w / 146097
  let doe := w % 146097
  let yoe := (doe - doe / 1460 + doe / 36524 - doe / 146096) / 365
  let doy := doe - (365 * yoe + yoe / 4 - yoe / 100)
  let mp := (5 * doy + 2) / 153
  let d := doy - (153 * mp + 2) / 5 + 1
  let m := if mp < 10 then mp + 3 else mp - 9
  let y := yoe + era * 400
  (if m ≤ 2 then y + 1 else y, m, d)

/-- `Date#toISOString` for a non-negative epoch-millisecond count (years
at least 10000, which JS prints in expanded form, do not occur in any
claim). -/
def isoOfMillis (ms : Nat) : String :=
  let days := ms / 86400000
  let rem := ms % 86400000
  let ymd := civilFromDays days
  pad4 ymd.1 ++ "-" ++ pad2 ymd.2.1 ++ "-" ++ pad2 ymd.2.2 ++ "T" ++
  pad2 (rem / 3600000) ++ ":" ++ pad2 ((rem % 3600000) / 60000) ++ ":" ++
  pad2 ((rem % 60000) / 1000) ++ "." ++ pad3 (rem % 1000) ++ "Z"

/-- Decimal rendering of a reduced positive fraction `n / d` with `d ≠ 1`
whose denominator divides a power of ten (the only finite non-integers JS
reaches in this program); the minimal power gives no trailing zeros, as
in JS shortest printing.  Denominators that are not of this form (never
produced by decimal parsing) fall back to a fraction display. -/
def renderDecimalFrac (n d : Nat) : String :=
  match (List.range 65).find? (fun k => decide (0 < k) && (10 ^ k) % d == 0) with
  | some k =>
    let m := n * ((10 ^ k) / d)
    let ip := m / 10 ^ k
    let fr := m % 10 ^ k
    let fs := Nat.repr fr
    let pad := String.mk (List.replicate (k - fs.length) '0')
    Nat.repr ip ++ "." ++ pad ++ fs
  | none => Nat.repr n ++ "/" ++ Nat.repr d

/-- JS rendering of a finite number: reduce the fraction, then print an
integer or a decimal expansion.  (JS switches to exponent form below 1e-6
and at or above 1e21; those magnitudes occur in no claim.) -/
def fracToString (f : Frac) : String :=
  let g := Nat.gcd f.num.natAbs f.den
  let na := f.num.natAbs / g
  let d := f.den / g
  let core := if d == 1 then Nat.repr na else renderDecimalFrac na d
  if f.num < 0 then "-" ++ core else core

/-- JS `Number#toString` (base 10). -/
def jsNumToString : JsNum → String
  | .nan => "NaN"
  | .posInf => "Infinity"
  | .negInf => "-Infinity"
  | .finite f => fracToString f

mutual

/-- JS `String(value)`. -/
def jsStringOf : JsValue → String
  | .null => "null"
  | .undefined => "undefined"
  | .bool b => if b then "true" else "false"
  | .num n => jsNumToString n
  | .str s => s
  | .arr xs => joinElems xs
  | .obj _ => "[object Object]"

/-- Array elements joined by commas, as `Array#toString`. -/
def joinElems : List JsValue → String
  | [] => ""
  | [v] => elemString v
  | v :: vs => elemString v ++ "," ++ joinElems vs

/-- One array element: null and undefined print as empty. -/
def elemString : JsValue → String
  | .null => ""
  | .undefined => ""
  | v => jsStringOf v

end

/-- The template literal building the default memo:
`Pago por servicio (${amount} ${currency})`. -/
def defaultMemo (amount currency : JsValue) : String :=
  "Pago por servicio (" ++ jsStringOf amount ++ " " ++ jsStringOf currency ++ ")"

/-- `s.replace(/\/+$/, "")` on the character list. -/
def stripTrailingSlashChars (cs : List Char) : List Char :=
  (cs.reverse.dropWhile (· == '/')).reverse

/-- `s.replace(/^\/+/, "")` on the character list. -/
def stripLeadingSlashChars (cs : List Char) : List Char :=
  cs.dropWhile (· == '/')

/-- Whether `cs` starts with `pre`. -/
def startsWithChars (cs pre : List Char) : Bool :=
  match pre, cs with
  | [], _ => true
  | _ :: _, [] => false
  | p :: ps, c :: rest => p == c && startsWithChars rest ps

/-- The value `callApi` returns: HTTP status, the raw headers
(`res.headers.raw()`: lowercase name to list of values), and the parsed
JSON body when `JSON.parse(text)` succeeded (`none` is the `text` branch:
the body was kept as raw text only). -/
structure RemoteResponse where
  status : Nat
  headers : List (String × List String)
  json : Option JsValue

/-- The `json` property as a JS value: the parsed body, or `undefined`
when the response object has only `text`. -/
def RemoteResponse.jsonVal (r : RemoteResponse) : JsValue :=
  match r.json with
  | some v => v
  | none => .undefined

/-- The JS value of `op.headers.location && op.headers.location[0]`: the
header's first value when the `location` key is present (an array is
always truthy), `undefined` when the key is absent or the array empty. -/
def RemoteResponse.locVal (r : RemoteResponse) : JsValue :=
  match r.headers.lookup "location" with
  | some l =>
    match l.head? with
    | some s => .str s
    | none => .undefined
  | none => .undefined

/-- What the create handler stores and returns as `resource_url`:
`(op.json && (op.json.id || (op.headers && op.headers.location &&
op.headers.location[0]))) ? (op.json?.id || (op.headers.location &&
op.headers.location[0])) : null`. -/
def extractResourceUrl (op : RemoteResponse) : JsValue :=
  let j := op.jsonVal
  let idOrLoc := jsOr (j.get "id") op.locVal
  if j.truthy && idOrLoc.truthy then idOrLoc else .null

/-- A serialized JSON blob stored in the `op_response` column, kept with
its provenance (`JSON.stringify(op)` of a remote response, or
`JSON.stringify(payload)` of a webhook payload). -/
inductive StoredBlob where
  | fromRemote (op : RemoteResponse) : StoredBlob
  | fromPayload (payload : JsValue) : StoredBlob

/-- One row of the `payments` table. -/
structure PaymentRow where
  id : String
  local_id : String
  amount : JsNum
  currency : JsValue
  payee : String
  status : JsValue
  resource_url : JsValue
  op_response : StoredBlob
  created_at : Nat

/-- Whether the bound value of `WHERE local_id = ?` matches the TEXT
column: SQLite equality is type-strict, so only a string bind with the
same characters matches. -/
def localIdMatches (bound : JsValue) (col : String) : Bool :=
  match bound with
  | .str s => s == col
  | _ => false

/-- Result of a `/create-payment` request: a 400 validation failure, a
500 from an uncaught exception, or the 200 success body
`{success:true, localId, localDbId, resource_url, op}`. -/
inductive CreateResult where
  | validationError (msg : String) : CreateResult
  | serverError : CreateResult
  | success (localId : String) (localDbId : String)
      (resource_url : JsValue) (op : RemoteResponse) : CreateResult

/-- Whether the result is the success body. -/
def CreateResult.isSuccess : CreateResult → Bool
  | .success _ _ _ _ => true
  | _ => false

/-- Whether the result is a 400 validation failure. -/
def CreateResult.isValidationFailure : CreateResult → Bool
  | .validationError _ => true
  | _ => false

/-- The `localId` field of a success body. -/
def CreateResult.localIdOf : CreateResult → Option String
  | .success l _ _ _ => some l
  | _ => none

/-- The `resource_url` field of a success body. -/
def CreateResult.resourceUrlOf : CreateResult → Option JsValue
  | .success _ _ u _ => some u
  | _ => none

/-- Everything a `/create-payment` invocation produces: the HTTP result,
the table afterwards, and the outbound remote calls made (target URL and
JSON payload). -/
structure CreateOutcome where
  result : CreateResult
  db : List PaymentRow
  calls : List (String × JsValue)

/-- The optional `expiresAt` computation:
`if (expiresInSeconds && Number(expiresInSeconds) > 0)` then
`new Date(Date.now() + Number(expiresInSeconds) * 1000).toISOString()`.
`new Date` truncates its argument towards zero; an Infinity or an
out-of-range epoch value makes `toISOString` throw a RangeError, which
the handler's try/catch turns into a 500.  The result is `none` for the
throw, `some none` when no field is added, and `some (some iso)` for an
added `expiresAt` value. -/
def expiresAtOutcome (expiresInSeconds : JsValue) (now : Nat) :
    Option (Option String) :=
  if expiresInSeconds.truthy && (jsToNumber expiresInSeconds).gtZero then
    match jsToNumber expiresInSeconds with
    | .finite f =>
      let ms := ((Frac.mk (now : ℤ) 1).add (f.mul ⟨1000, 1⟩)).floor
      if ms > 8640000000000000 then none else some (some (isoOfMillis ms.toNat))
    | _ => none
  else some none

/-- The outbound JSON payload of the create handler (the `payload`
object literal of the source, including the conditionally added
`expiresAt`). -/
def buildPayload (payee currency amount memo : JsValue) (metaUuid : String)
    (valueInt : String) (eo : Option String) : JsValue :=
  .obj ([("walletAddress", payee),
         ("incomingAmount",
          .obj [("value", .str valueInt), ("assetCode", currency),
                ("assetScale", .num (.finite ⟨2, 1⟩))]),
         ("metadata",
          .obj [("localId", .str metaUuid),
                ("memo", jsOr memo (.str (defaultMemo amount currency)))])] ++
        (match eo with
         | some iso => [("expiresAt", .str iso)]
         | none => []))

/-- The request currency: the destructuring default
`currency = "MXN"` applies exactly when the property is undefined. -/
def requestCurrency (body : JsValue) : JsValue :=
  match body.get "currency" with
  | .undefined => .str "MXN"
  | v => v

/-- `(op.status === 201 || op.status === 200) ? "created" : "pending"`. -/
def statusTextOf (op : RemoteResponse) : String :=
  if op.status == 201 || op.status == 200 then "created" else "pending"

/-- Bit length of a natural number (fuel-bounded structural recursion so
that it computes in the kernel; the fuel covers every magnitude the
binary64 range and the decimal parser can produce). -/
def bitLenAux : Nat → Nat → Nat
  | 0, _ => 0
  | fuel + 1, n => if n = 0 then 0 else bitLenAux fuel (n / 2) + 1

/-- Bit length of a natural number. -/
def bitLen (n : Nat) : Nat := bitLenAux 20000 n

/-- Round-to-nearest, ties-to-even of the quotient `a / b` (`b > 0`):
the rounding mode of every IEEE-754 binary64 operation. -/
def rneDiv (a b : ℕ) : ℕ :=
  let q := a / b
  let r := a % b
  if 2 * r < b then q
  else if b < 2 * r then q + 1
  else if q % 2 = 0 then q else q + 1

/-- Whether `2 ^ e ≤ n / d` for positive `n`, `d`. -/
def ratPow2Le (e : ℤ) (n d : ℕ) : Bool :=
  if 0 ≤ e then d * 2 ^ e.toNat ≤ n else d ≤ n * 2 ^ (-e).toNat

/-- `⌊log2 (n / d)⌋` for positive `n`, `d`: the bit-length difference is
off by at most one, settled by one comparison. -/
def floorLog2 (n d : ℕ) : ℤ :=
  let e0 : ℤ := (bitLen n : ℤ) - (bitLen d : ℤ)
  if ratPow2Le e0 n d then e0 else e0 - 1

/-- The IEEE-754 binary64 value nearest the positive rational `n / d`
under roundTiesToEven, as an exact fraction, or +Infinity on overflow.
Subnormals round to a multiple of `2 ^ (-1074)`; normal values scale the
quotient into `[2^52, 2^53)`, round, and handle the carry to the next
binade; exponents beyond 1023 overflow. -/
def roundPosRatToDouble (n d : ℕ) : JsNum :=
  let e := floorLog2 n d
  if e < -1022 then .finite ⟨(rneDiv (n * 2 ^ 1074) d : ℤ), 2 ^ 1074⟩
  else
    let s : ℤ := 52 - e
    let a := n * 2 ^ (max s 0).toNat
    let b := d * 2 ^ (max (-s) 0).toNat
    let m0 := rneDiv a b
    let m := if m0 = 2 ^ 53 then 2 ^ 52 else m0
    let e' := if m0 = 2 ^ 53 then e + 1 else e
    if 1023 < e' then .posInf
    else if 0 ≤ e' - 52 then .finite ⟨((m * 2 ^ (e' - 52).toNat : ℕ) : ℤ), 1⟩
    else .finite ⟨(m : ℤ), 2 ^ (52 - e').toNat⟩

/-- The binary64 value nearest the exact rational `f`: zero stays zero,
signs are symmetric (roundTiesToEven is sign-symmetric).  This is the
rounding `Number()` applies to a decimal literal and the rounding every
JS arithmetic operation applies to its exact result. -/
def toDouble64 (f : Frac) : JsNum :=
  if f.num = 0 then .finite ⟨0, 1⟩
  else if 0 < f.num then roundPosRatToDouble f.num.toNat f.den
  else
    match roundPosRatToDouble f.num.natAbs f.den with
    | .finite g => .finite g.neg
    | .posInf => .negInf
    | x => x

/-- binary64 rounding lifted to JS numbers (NaN and infinities are fixed
points). -/
def toDoubleNum : JsNum → JsNum
  | .finite f => toDouble64 f
  | x => x

/-- `valueInt`: `Math.round(parsed * Math.pow(10, 2)).toString()`.
`parsed` is the IEEE-754 double `Number()` produced and the product is
again rounded to binary64, so the value reaching `Math.round` is
`fl64(fl64(parsed) * 100)`; `Math.round` itself acts exactly on that
double's value (floor of x + 1/2).  Elsewhere the embedding keeps parsed
amounts exact, because the other handlers only observe their sign / NaN
class; here representation error is observable (see the C8
counterexample at amount "1.005"), so the binary64 roundings are applied
explicitly. -/
def minorUnitsValue (parsed : JsNum) : String :=
  jsNumToString (mathRound (toDoubleNum ((toDoubleNum parsed).mul (.finite ⟨100, 1⟩))))

/-- The create handler's target URL:
`payee.replace(/\/+$/, "") + "/incoming-payments"`. -/
def targetUrlOf (payeeStr : String) : String :=
  String.mk (stripTrailingSlashChars payeeStr.data) ++ "/incoming-payments"

/-- The row the create handler inserts. -/
def insertedRow (body : JsValue) (metaUuid localDbUuid : String)
    (op : RemoteResponse) (now : Nat) (payeeStr : String) : PaymentRow :=
  ⟨localDbUuid, metaUuid, jsToNumber (body.get "amount"), requestCurrency body,
   payeeStr, .str (statusTextOf op), extractResourceUrl op, .fromRemote op, now⟩

/-- The `POST /create-payment` handler.  `metaUuid` and `localDbUuid` are
the two `randomUUID()` draws, `remote` is the response `callApi` would
return for the outbound call, `db` is the payments table before the
request and `now` the epoch-millisecond clock.  A non-string truthy
`payee` makes `payee.replace` throw a TypeError, which the outer
try/catch turns into a 500 before any call or insert. -/
def createPayment (body : JsValue) (metaUuid localDbUuid : String)
    (remote : RemoteResponse) (db : List PaymentRow) (now : Nat) :
    CreateOutcome :=
  let amount := body.get "amount"
  let payee := body.get "payee"
  if !amount.truthy || !payee.truthy then
    ⟨.validationError "amount and payee required", db, []⟩
  else
    let parsed := jsToNumber amount
    if parsed.isNaN || parsed.leZero then
      ⟨.validationError "invalid amount", db, []⟩
    else
      match expiresAtOutcome (body.get "expiresInSeconds") now with
      | none => ⟨.serverError, db, []⟩
      | some eo =>
        match payee with
        | .str payeeStr =>
          let payload := buildPayload payee (requestCurrency body) amount
            (body.get "memo") metaUuid (minorUnitsValue parsed) eo
          let op := remote
          ⟨.success metaUuid localDbUuid (extractResourceUrl op) op,
           db ++ [insertedRow body metaUuid localDbUuid op now payeeStr],
           [(targetUrlOf payeeStr, payload)]⟩
        | _ => ⟨.serverError, db, []⟩

/-- Result of a `GET /status/*` request. -/
inductive PollResult where
  | badRequest : PollResult
  | ok (op : RemoteResponse) : PollResult

/-- Everything a poll invocation produces: the HTTP result, the table
afterwards, and the URL fetched (none when the path was missing). -/
structure PollOutcome where
  result : PollResult
  db : List PaymentRow
  fetched : Option String

/-- URL resolution of the poll handler: absolute URLs pass through,
otherwise the path is resolved against the configured base. -/
def resolveStatusUrl (raw base : String) : String :=
  let isUrl := startsWithChars raw.data "http://".data ||
               startsWithChars raw.data "https://".data
  if isUrl then raw
  else (if !(base == "") then String.mk (stripTrailingSlashChars base.data) else "")
       ++ "/" ++ String.mk (stripLeadingSlashChars raw.data)

/-- `const opJson = op.json || null`. -/
def opJsonOrNull (op : RemoteResponse) : JsValue :=
  let j := op.jsonVal
  if j.truthy then j else .null

/-- `opJson?.metadata?.localId || null`. -/
def pollLocalId (j : JsValue) : JsValue :=
  jsOr ((j.get "metadata").get "localId") .null

/-- `opJson?.status || (opJson?.receiveAmount ? "received" : null) || null`. -/
def pollNewStatus (j : JsValue) : JsValue :=
  jsOr (jsOr (j.get "status")
             (if (j.get "receiveAmount").truthy then .str "received" else .null))
       .null

/-- `UPDATE payments SET status = ?, op_response = ? WHERE local_id = ?`. -/
def updateStatusAndBlob (db : List PaymentRow) (bound : JsValue)
    (st : JsValue) (blob : StoredBlob) : List PaymentRow :=
  db.map fun r =>
    if localIdMatches bound r.local_id then
      { r with status := st, op_response := blob }
    else r

/-- The `GET /status/*` handler.  `raw` is the wildcard path, `base` the
configured `OPEN_PAYMENTS_BASE`, `remote` the response `callApi` would
return for the fetch. -/
def pollStatus (raw base : String) (remote : RemoteResponse)
    (db : List PaymentRow) : PollOutcome :=
  if raw == "" then ⟨.badRequest, db, none⟩
  else
    let url := resolveStatusUrl raw base
    let op := remote
    let j := opJsonOrNull op
    let localId := pollLocalId j
    let newStatus := pollNewStatus j
    if localId.truthy && newStatus.truthy then
      ⟨.ok op, updateStatusAndBlob db localId newStatus (.fromRemote op), some url⟩
    else ⟨.ok op, db, some url⟩

/-- The HTTP reply of the webhook endpoint (status code and plain text
body). -/
inductive WebhookResult where
  | respond (status : Nat) (body : String) : WebhookResult

/-- Everything a webhook invocation produces. -/
structure WebhookOutcome where
  result : WebhookResult
  db : List PaymentRow

/-- `payload?.data?.metadata?.localId || payload?.metadata?.localId ||
payload?.metadata?.local_id || null`. -/
def webhookLocalId (payload : JsValue) : JsValue :=
  jsOr (jsOr (jsOr (((payload.get "data").get "metadata").get "localId")
                   ((payload.get "metadata").get "localId"))
             ((payload.get "metadata").get "local_id"))
       .null

/-- `payload?.data?.status || payload?.status || "webhook_updated"`. -/
def webhookNewStatus (payload : JsValue) : JsValue :=
  jsOr (jsOr ((payload.get "data").get "status") (payload.get "status"))
       (.str "webhook_updated")

/-- `payload?.data?.id || payload?.id || null`. -/
def webhookResourceUrl (payload : JsValue) : JsValue :=
  jsOr (jsOr ((payload.get "data").get "id") (payload.get "id")) .null

/-- The `POST /webhook` handler: update the matching record's status,
response blob and resource URL when a localId was extracted; always
answer 200 "ok" (the 500 "error" path needs an exception outside the
inner try/catch, which this handler body cannot raise). -/
def applyWebhook (payload : JsValue) (db : List PaymentRow) : WebhookOutcome :=
  let localId := webhookLocalId payload
  let newStatus := webhookNewStatus payload
  let resource_url := webhookResourceUrl payload
  if localId.truthy then
    ⟨.respond 200 "ok",
     db.map fun r =>
       if localIdMatches localId r.local_id then
         { r with status := newStatus, op_response := .fromPayload payload,
                  resource_url := resource_url }
       else r⟩
  else ⟨.respond 200 "ok", db⟩

section SmokeTests

/-- A 201 remote response with a body `id`, as in the spec's scenario 7. -/
def demoRemote : RemoteResponse :=
  ⟨201, [], some (.obj [("id", .str "https://wallet.example/merchant/incoming-payments/abc")])⟩

/-- The spec's scenario 7 request body. -/
def demoBody : JsValue :=
  .obj [("amount", .str "5.00"), ("payee", .str "https://wallet.example/merchant")]

/-- A sample stored row for concrete instances. -/
def demoRow : PaymentRow := ⟨"row-id", "L1", .finite ⟨500, 100⟩, .str "MXN",
  "https://wallet.example/merchant", .str "created",
  .str "https://wallet.example/merchant/incoming-payments/abc",
  .fromRemote demoRemote, 0⟩

/-- The C1 counterexample payload: a matching localId under `metadata`,
but neither `data.id` nor `id`. -/
def c1Payload : JsValue := .obj [("metadata", .obj [("localId", .str "L1")])]

/-- The request body of the C2 counterexample: a positive-Infinity amount
(`Number("Infinity")` is Infinity; a JSON number literal overflowing to
Infinity behaves the same). -/
def c2Body : JsValue :=
  .obj [("amount", .str "Infinity"), ("payee", .str "https://wallet.example/merchant")]

/-- The columns of a payment row other than `status` and `op_response`. -/
def PaymentRow.frameFields (row : PaymentRow) :
    String × String × JsNum × JsValue × String × JsValue × Nat :=
  (row.id, row.local_id, row.amount, row.currency, row.payee,
   row.resource_url, row.created_at)

/-- Whether a row's `local_id` column matches the bound value. -/
def matchesBound (bound : JsValue) (row : PaymentRow) : Bool :=
  localIdMatches bound row.local_id

/-- A poll response carrying a matching `metadata.localId` and a status. -/
def c6Remote : RemoteResponse :=
  ⟨200, [], some (.obj [("metadata", .obj [("localId", .str "L1")]),
                        ("status", .str "completed")])⟩

/-- `payload.metadata.localId` of an outbound payload. -/
def payloadLocalId (p : JsValue) : JsValue := (p.get "metadata").get "localId"

/-- `metadata.localId` of one recorded outbound call. -/
def callLocalId (c : String × JsValue) : JsValue := payloadLocalId c.2

/-- A remote response whose body is not JSON but which carries a
`Location` header (the C3 counterexample). -/
def c3Remote : RemoteResponse :=
  ⟨201, [("location", ["https://wallet.example/ip/7"])], none⟩

/-- `incomingAmount.value` of one recorded outbound call. -/
def callMinorValue (c : String × JsValue) : JsValue :=
  (c.2.get "incomingAmount").get "value"

/-- The C8 counterexample body: amount "1.005", whose binary64 product
with 100 falls below the half-integer. -/
def c8Body : JsValue :=
  .obj [("amount", .str "1.005"), ("payee", .str "https://wallet.example/merchant")]

example : jsToNumber (.str "5.00") = .finite ⟨500, 100⟩ := by decide
example : jsToNumber (.str "Infinity") = .posInf := by decide
example : jsToNumber (.str "") = .finite ⟨0, 1⟩ := by decide
example : jsToNumber (.str "abc") = .nan := by decide
example : jsToNumber (.str "-3.5") = .finite (Frac.neg ⟨35, 10⟩) := by decide
example : mathRound (.finite ⟨500, 100⟩) = .finite ⟨5, 1⟩ := by decide
example : mathRound ((jsToNumber (.str "0.125")).mul (.finite ⟨100, 1⟩)) =
    .finite ⟨13, 1⟩ := by decide

example : minorUnitsValue (jsToNumber (.str "5.00")) = "500" := by decide
example : minorUnitsValue (jsToNumber (.str "1.005")) = "100" := by decide
example : toDouble64 ⟨1005, 1000⟩ = .finite ⟨4526117625507348, 4503599627370496⟩ := by
  decide
example : fracToString ⟨550, 100⟩ = "5.5" := by decide
example : isoOfMillis 0 = "1970-01-01T00:00:00.000Z" := by decide
example : isoOfMillis 1700000000123 = "2023-11-14T22:13:20.123Z" := by decide

example : (createPayment demoBody "uL" "uD" demoRemote [] 0).result.isSuccess = true := by
  decide

example : (createPayment demoBody "uL" "uD" demoRemote [] 0).calls.length = 1 := by
  decide

example : (createPayment demoBody "uL" "uD" demoRemote [] 0).db.map PaymentRow.local_id
    = ["uL"] := by decide

example : (createPayment demoBody "uL" "uD" demoRemote [] 0).db.map PaymentRow.resource_url
    = [JsValue.str "https://wallet.example/merchant/incoming-payments/abc"] := rfl

example : (createPayment demoBody "uL" "uD" demoRemote [] 0).db.map PaymentRow.status
    = [JsValue.str "created"] := rfl

example : (createPayment demoBody "uL" "uD" demoRemote [] 0).calls.map
    (fun c => (c.2.get "incomingAmount").get "value") = [JsValue.str "500"] := rfl

example : (createPayment demoBody "uL" "uD" demoRemote [] 0).calls.map Prod.fst
    = ["https://wallet.example/merchant/incoming-payments"] := rfl

example :
    (pollStatus "x" "" ⟨200, [], some (.obj [("metadata", .obj [("localId", .str "uL")]),
      ("status", .str "completed")])⟩
      [⟨"uD", "uL", .finite ⟨500, 100⟩, .str "MXN", "p", .str "created", .null,
        .fromRemote demoRemote, 0⟩]).db.map PaymentRow.status
    = [JsValue.str "completed"] := rfl

example :
    (applyWebhook (.obj [("metadata", .obj [("localId", .str "uL")])])
      [⟨"uD", "uL", .finite ⟨500, 100⟩, .str "MXN", "p", .str "created",
        .str "https://w/ip/1", .fromRemote demoRemote, 0⟩]).db.map PaymentRow.resource_url
    = [JsValue.null] := rfl

end SmokeTests

/-! Bridge lemmas relating the exact-fraction computations to their
rational values, and the decimal-digit property of `Nat.repr`. -/

theorem Frac.toRat_mul (a b : Frac) : (a.mul b).toRat = a.toRat * b.toRat := by
  simp only [Frac.mul, Frac.toRat]
  push_cast
  rw [div_mul_div_comm]

theorem Frac.toRat_add (a b : Frac) (ha : a.den ≠ 0) (hb : b.den ≠ 0) :
    (a.add b).toRat = a.toRat + b.toRat := by
  simp only [Frac.add, Frac.toRat]
  have ha' : (a.den : ℚ) ≠ 0 := Nat.cast_ne_zero.mpr ha
  have hb' : (b.den : ℚ) ≠ 0 := Nat.cast_ne_zero.mpr hb
  field_simp

theorem Frac.floor_toRat (a : Frac) : a.floor = ⌊a.toRat⌋ := by
  unfold Frac.floor Frac.toRat
  rw [Rat.floor_intCast_div_natCast]
  exact Int.fdiv_eq_ediv _ (Int.natCast_nonneg _)

theorem Frac.toRat_pos (a : Frac) (hn : 0 < a.num) (hd : 0 < a.den) :
    0 < a.toRat :=
  div_pos (by exact_mod_cast hn) (by exact_mod_cast hd)

theorem digitChar_isDigit : ∀ m : ℕ, m < 10 → (Nat.digitChar m).isDigit = true := by
  decide

theorem toDigitsCore_isDigit (fuel : ℕ) : ∀ (n : ℕ) (acc : List Char),
    (∀ c ∈ acc, c.isDigit = true) →
    ∀ c ∈ Nat.toDigitsCore 10 fuel n acc, c.isDigit = true := by
  induction fuel with
  | zero => intro n acc hacc c hc; exact hacc c hc
  | succ fu ih =>
    intro n acc hacc c hc
    simp only [Nat.toDigitsCore] at hc
    have hcons : ∀ d ∈ Nat.digitChar (n % 10) :: acc, d.isDigit = true := by
      intro d hd
      rcases List.mem_cons.mp hd with h1 | h2
      · subst h1; exact digitChar_isDigit _ (Nat.mod_lt _ (by decide))
      · exact hacc d h2
    by_cases h : n / 10 = 0
    · rw [if_pos h] at hc
      exact hcons c hc
    · rw [if_neg h] at hc
      exact ih (n / 10) (Nat.digitChar (n % 10) :: acc) hcons c hc

/-- Every character of `Nat.repr` is a decimal digit (hence no sign and
no fractional point appear). -/
theorem natRepr_isDigit (n : ℕ) : ∀ c ∈ (Nat.repr n).data, c.isDigit = true := by
  intro c hc
  have h : (Nat.repr n).data = Nat.toDigitsCore 10 (n + 1) n [] := rfl
  rw [h] at hc
  exact toDigitsCore_isDigit (n + 1) n [] (by intro d hd; cases hd) c hc

/-- `fracToString` on an integer fraction with nonnegative numerator is
the plain decimal numeral. -/
theorem fracToString_int_nonneg (m : ℤ) (hm : 0 ≤ m) :
    fracToString ⟨m, 1⟩ = Nat.repr m.toNat := by
  have hg : Nat.gcd m.natAbs 1 = 1 := Nat.gcd_one_right _
  simp only [fracToString, hg, Nat.div_one]
  rw [if_neg (not_lt.mpr hm), if_pos (by decide : ((1 : ℕ) == 1) = true)]
  congr 1
  omega

/-- Shape of every successful create invocation: the payee was a string,
and the outcome is exactly one insert, one outbound call, and the success
body assembled from the remote response. -/
theorem createPayment_success_shape (body : JsValue) (mu du : String)
    (r : RemoteResponse) (db : List PaymentRow) (now : Nat)
    (h : (createPayment body mu du r db now).result.isSuccess = true) :
    ∃ (payeeStr : String) (eo : Option String),
      body.get "payee" = JsValue.str payeeStr ∧
      createPayment body mu du r db now =
        ⟨.success mu du (extractResourceUrl r) r,
         db ++ [insertedRow body mu du r now payeeStr],
         [(targetUrlOf payeeStr,
           buildPayload (JsValue.str payeeStr) (requestCurrency body)
             (body.get "amount") (body.get "memo") mu
             (minorUnitsValue (jsToNumber (body.get "amount"))) eo)]⟩ := by
  revert h
  simp only [createPayment]
  split
  · intro h; simp [CreateResult.isSuccess] at h
  · split
    · intro h; simp [CreateResult.isSuccess] at h
    · split
      · intro h; simp [CreateResult.isSuccess] at h
      · rename_i eo heo
        split
        · rename_i payeeStr heq
          intro _
          exact ⟨payeeStr, eo, heq, by rw [heq]⟩
        · intro h; simp [CreateResult.isSuccess] at h

/-- C10: with `payee` present (truthy) and `amount` a falsy value such as
the number 0 or the empty string, the create handler rejects at the
presence check with "amount and payee required" (HTTP 400), not with
"invalid amount": the presence test is a falsiness test, so a zero amount
never reaches the numeric validation step. -/
theorem c10_zero_amount_hits_presence_check (body : JsValue) (mu du : String)
    (r : RemoteResponse) (db : List PaymentRow) (now : Nat)
    (hA : (body.get "amount").truthy = false)
    (_hP : (body.get "payee").truthy = true) :
    (createPayment body mu du r db now).result =
      .validationError "amount and payee required" := by
  simp only [createPayment]
  rw [if_pos (by simp [hA])]

/-- Witness for C10 at `amount = 0` and at `amount = ""`. -/
theorem c10_zero_amount_hits_presence_check_witness :
    (createPayment (.obj [("amount", .num (.finite ⟨0, 1⟩)),
        ("payee", .str "https://wallet.example/merchant")]) "u1" "u2"
        demoRemote [] 0).result = .validationError "amount and payee required" ∧
    (createPayment (.obj [("amount", .str ""),
        ("payee", .str "https://wallet.example/merchant")]) "u1" "u2"
        demoRemote [] 0).result = .validationError "amount and payee required" :=
  ⟨c10_zero_amount_hits_presence_check _ "u1" "u2" demoRemote [] 0
      (by decide) (by decide),
   c10_zero_amount_hits_presence_check _ "u1" "u2" demoRemote [] 0
      (by decide) (by decide)⟩

/-- C4: every request failing validation (amount missing/falsy, payee
missing/falsy, non-numeric amount, or amount ≤ 0) gets a ValidationError
response, and the handler performs zero inserts and zero outbound remote
calls: the payments table is exactly as before. -/
theorem c4_validation_failure_no_insert_no_call (body : JsValue)
    (mu du : String) (r : RemoteResponse) (db : List PaymentRow) (now : Nat)
    (h : (body.get "amount").truthy = false ∨ (body.get "payee").truthy = false ∨
         (jsToNumber (body.get "amount")).isNaN = true ∨
         (jsToNumber (body.get "amount")).leZero = true) :
    (createPayment body mu du r db now).result.isValidationFailure = true ∧
    (createPayment body mu du r db now).db = db ∧
    (createPayment body mu du r db now).calls = [] := by
  simp only [createPayment]
  by_cases h1 : (!(body.get "amount").truthy || !(body.get "payee").truthy) = true
  · rw [if_pos h1]; exact ⟨rfl, rfl, rfl⟩
  · rw [if_neg h1]
    have h2 : ((jsToNumber (body.get "amount")).isNaN ||
        (jsToNumber (body.get "amount")).leZero) = true := by
      rcases h with h | h | h | h
      · exact absurd (by simp [h]) h1
      · exact absurd (by simp [h]) h1
      · simp [h]
      · simp [h]
    rw [if_pos h2]
    exact ⟨rfl, rfl, rfl⟩

/-- Witness for C4 at the non-numeric amount "abc" and a non-empty table. -/
theorem c4_validation_failure_no_insert_no_call_witness :
    (createPayment (.obj [("amount", .str "abc"),
        ("payee", .str "https://wallet.example/merchant")]) "u1" "u2"
        demoRemote [demoRow] 0).result.isValidationFailure = true ∧
    (createPayment (.obj [("amount", .str "abc"),
        ("payee", .str "https://wallet.example/merchant")]) "u1" "u2"
        demoRemote [demoRow] 0).db = [demoRow] ∧
    (createPayment (.obj [("amount", .str "abc"),
        ("payee", .str "https://wallet.example/merchant")]) "u1" "u2"
        demoRemote [demoRow] 0).calls = [] :=
  c4_validation_failure_no_insert_no_call _ "u1" "u2" demoRemote [demoRow] 0
    (Or.inr (Or.inr (Or.inl (by decide))))

/-- C2 counterexample: with `amount = "Infinity"` (which parses to the
non-finite value +Infinity, so the claim demands a ValidationError
"invalid amount"), the handler in fact proceeds: the validation only
tests `Number.isNaN(parsed) || parsed <= 0`, which +Infinity passes, and
the request succeeds with one outbound call and one insert. -/
theorem c2_counterexample :
    jsToNumber (c2Body.get "amount") = .posInf ∧
    (createPayment c2Body "u1" "u2" demoRemote [] 0).result.isSuccess = true ∧
    (createPayment c2Body "u1" "u2" demoRemote [] 0).calls.length = 1 ∧
    (createPayment c2Body "u1" "u2" demoRemote [] 0).db.length = 1 :=
  ⟨by decide, by decide, by decide, by decide⟩

/-- C2 (amended): given amount and payee both present (truthy), the
handler fails with ValidationError "invalid amount" exactly when the
parsed amount is NaN or ≤ 0; a parsed amount of +Infinity is not finite
yet passes the validation, so "finite" in the original claim must be
weakened to "not NaN". -/
theorem c2_invalid_amount_iff_nan_or_nonpositive (body : JsValue)
    (mu du : String) (r : RemoteResponse) (db : List PaymentRow) (now : Nat)
    (hA : (body.get "amount").truthy = true)
    (hP : (body.get "payee").truthy = true) :
    (createPayment body mu du r db now).result =
        .validationError "invalid amount" ↔
      ((jsToNumber (body.get "amount")).isNaN = true ∨
       (jsToNumber (body.get "amount")).leZero = true) := by
  simp only [createPayment]
  rw [if_neg (by simp [hA, hP])]
  by_cases h2 : ((jsToNumber (body.get "amount")).isNaN ||
      (jsToNumber (body.get "amount")).leZero) = true
  · rw [if_pos h2]
    simp only [Bool.or_eq_true] at h2
    exact ⟨fun _ => h2, fun _ => rfl⟩
  · rw [if_neg h2]
    constructor
    · intro hres
      exfalso
      split at hres
      · exact CreateResult.noConfusion hres
      · split at hres
        · exact CreateResult.noConfusion hres
        · exact CreateResult.noConfusion hres
    · intro hd
      exact absurd (by simpa [Bool.or_eq_true] using hd) h2

/-- Witness for the amended C2: a NaN amount yields "invalid amount", and
the +Infinity amount of the counterexample does not. -/
theorem c2_invalid_amount_iff_nan_or_nonpositive_witness :
    ((createPayment (.obj [("amount", .str "abc"),
          ("payee", .str "https://wallet.example/merchant")]) "u1" "u2"
          demoRemote [] 0).result = .validationError "invalid amount") ∧
    ¬ ((createPayment c2Body "u1" "u2" demoRemote [] 0).result =
          .validationError "invalid amount") :=
  ⟨(c2_invalid_amount_iff_nan_or_nonpositive _ "u1" "u2" demoRemote [] 0
      (by decide) (by decide)).mpr (Or.inl (by decide)),
   fun h =>
     Or.elim ((c2_invalid_amount_iff_nan_or_nonpositive c2Body "u1" "u2"
        demoRemote [] 0 (by decide) (by decide)).mp h)
       (fun h1 => by exact absurd h1 (by decide))
       (fun h2 => by exact absurd h2 (by decide))⟩

/-- JS `a || b` falls through on a falsy left operand. -/
theorem jsOr_of_falsy (a b : JsValue) (h : a.truthy = false) : jsOr a b = b := by
  simp [jsOr, h]

/-- JS `a || b` short-circuits on a truthy left operand. -/
theorem jsOr_of_truthy (a b : JsValue) (h : a.truthy = true) : jsOr a b = a := by
  simp [jsOr, h]

/-- C7: a webhook payload in which none of `payload.data.metadata.localId`,
`payload.metadata.localId`, `payload.metadata.local_id` is present and
truthy is answered 200 "ok" with zero table mutations. -/
theorem c7_webhook_without_localid_is_noop (payload : JsValue)
    (db : List PaymentRow)
    (h1 : (((payload.get "data").get "metadata").get "localId").truthy = false)
    (h2 : ((payload.get "metadata").get "localId").truthy = false)
    (h3 : ((payload.get "metadata").get "local_id").truthy = false) :
    applyWebhook payload db = ⟨.respond 200 "ok", db⟩ := by
  have hl : (webhookLocalId payload).truthy = false := by
    rw [webhookLocalId, jsOr_of_falsy _ _ h1, jsOr_of_falsy _ _ h2,
        jsOr_of_falsy _ _ h3]
    rfl
  simp [applyWebhook, hl]

/-- Witness for C7: a payload carrying a status but no recognizable
localId leaves a one-row table untouched. -/
theorem c7_webhook_without_localid_is_noop_witness :
    applyWebhook (.obj [("status", .str "completed")]) [demoRow] =
      ⟨.respond 200 "ok", [demoRow]⟩ :=
  c7_webhook_without_localid_is_noop _ [demoRow] (by decide) (by decide) (by decide)

/-- C1 counterexample: `demoRow` has a non-null `resource_url` and a
`local_id` matching the webhook payload's `metadata.localId`, yet after
the webhook (whose payload carries no `data.id`/`id`) the row's
`resource_url` is null: the webhook UPDATE always writes the extracted
`payload?.data?.id || payload?.id || null`, overwriting a previously set
value with null. -/
theorem c1_counterexample :
    demoRow.resource_url =
      JsValue.str "https://wallet.example/merchant/incoming-payments/abc" ∧
    webhookLocalId c1Payload = JsValue.str "L1" ∧
    demoRow.local_id = "L1" ∧
    (applyWebhook c1Payload [demoRow]).db.map PaymentRow.resource_url =
      [JsValue.null] :=
  ⟨rfl, rfl, rfl, rfl⟩

/-- C1 (amended): the poll path never modifies any record's
`resource_url`; the webhook path, when the payload carries a truthy
localId, rewrites every matching record's `resource_url` to
`payload?.data?.id || payload?.id || null` — in particular, when the
payload has no truthy `data.id` or `id` field, that value is null, so a
previously set `resource_url` is overwritten with null rather than left
unchanged. -/
theorem c1_resource_url_overwritten_by_webhook :
    (∀ (raw base : String) (r : RemoteResponse) (db : List PaymentRow),
       (pollStatus raw base r db).db.map PaymentRow.resource_url =
         db.map PaymentRow.resource_url) ∧
    (∀ (payload : JsValue) (db : List PaymentRow),
       (webhookLocalId payload).truthy = true →
       (applyWebhook payload db).db = db.map (fun row =>
         if localIdMatches (webhookLocalId payload) row.local_id then
           { row with status := webhookNewStatus payload,
                      op_response := .fromPayload payload,
                      resource_url := webhookResourceUrl payload }
         else row)) ∧
    (∀ payload : JsValue,
       ((payload.get "data").get "id").truthy = false →
       (payload.get "id").truthy = false →
       webhookResourceUrl payload = JsValue.null) := by
  refine ⟨?_, ?_, ?_⟩
  · intro raw base r db
    simp only [pollStatus]
    split
    · rfl
    · split
      · simp only [updateStatusAndBlob, List.map_map]
        apply List.map_congr_left
        intro row _
        by_cases hm : localIdMatches (pollLocalId (opJsonOrNull r)) row.local_id = true
        · simp [Function.comp, hm]
        · simp [Function.comp, hm]
      · rfl
  · intro payload db hl
    simp [applyWebhook, hl]
  · intro payload h1 h2
    rw [webhookResourceUrl, jsOr_of_falsy _ _ h1, jsOr_of_falsy _ _ h2]

/-- Witness for the amended C1: at the concrete counterexample inputs,
polling leaves `resource_url` columns unchanged, and the webhook rewrites
the matching row's `resource_url` to the extracted null. -/
theorem c1_resource_url_overwritten_by_webhook_witness :
    (pollStatus "x" "" demoRemote [demoRow]).db.map PaymentRow.resource_url =
      [demoRow].map PaymentRow.resource_url ∧
    (applyWebhook c1Payload [demoRow]).db.map PaymentRow.resource_url =
      [JsValue.null] ∧
    webhookResourceUrl c1Payload = JsValue.null := by
  refine ⟨c1_resource_url_overwritten_by_webhook.1 "x" "" demoRemote [demoRow],
          ?_,
          c1_resource_url_overwritten_by_webhook.2.2 c1Payload (by decide) (by decide)⟩
  rw [c1_resource_url_overwritten_by_webhook.2.1 c1Payload [demoRow] (by decide)]
  rfl

/-- C6: on the poll path, the extracted status is the JSON body's truthy
`status` value, else the literal "received" when a truthy `receiveAmount`
is present, else null; for every fetched response with a non-empty path
the endpoint answers success with the raw remote response, every row
keeps its `id`, `local_id`, `amount`, `currency`, `payee`, `resource_url`
and `created_at` columns, and a row differs from before only if both a
localId and a status were extracted and the row's `local_id` matches. -/
theorem c6_poll_update_frame :
    (∀ j : JsValue,
       ((j.get "status").truthy = true → pollNewStatus j = j.get "status") ∧
       ((j.get "status").truthy = false → (j.get "receiveAmount").truthy = true →
          pollNewStatus j = .str "received") ∧
       ((j.get "status").truthy = false → (j.get "receiveAmount").truthy = false →
          pollNewStatus j = .null)) ∧
    (∀ (raw base : String) (r : RemoteResponse) (db : List PaymentRow),
       (raw == "") = false →
       (pollStatus raw base r db).result = .ok r ∧
       (∀ i : ℕ,
         ((pollStatus raw base r db).db[i]?).map PaymentRow.frameFields =
           (db[i]?).map PaymentRow.frameFields ∧
         ((pollStatus raw base r db).db[i]? ≠ db[i]? →
           (pollLocalId (opJsonOrNull r)).truthy = true ∧
           (pollNewStatus (opJsonOrNull r)).truthy = true ∧
           (db[i]?).map (matchesBound (pollLocalId (opJsonOrNull r))) =
             some true))) := by
  constructor
  · intro j
    refine ⟨?_, ?_, ?_⟩
    · intro h
      rw [pollNewStatus, jsOr_of_truthy _ _ h, jsOr_of_truthy _ _ h]
    · intro h h2
      rw [pollNewStatus, jsOr_of_falsy _ _ h, if_pos h2,
          jsOr_of_truthy _ _ (by decide)]
    · intro h h2
      rw [pollNewStatus, jsOr_of_falsy _ _ h, if_neg (by simp [h2]),
          jsOr_of_falsy _ _ (by decide)]
  · intro raw base r db hr
    have hraw : ¬ ((raw == "") = true) := by simp [hr]
    simp only [pollStatus]
    rw [if_neg hraw]
    by_cases hc : ((pollLocalId (opJsonOrNull r)).truthy &&
        (pollNewStatus (opJsonOrNull r)).truthy) = true
    · rw [if_pos hc]
      have hc' := hc
      rw [Bool.and_eq_true] at hc'
      refine ⟨rfl, fun i => ⟨?_, ?_⟩⟩
      · simp only [updateStatusAndBlob, List.getElem?_map]
        cases hdb : db[i]? with
        | none => rfl
        | some row =>
          by_cases hm : localIdMatches (pollLocalId (opJsonOrNull r))
              row.local_id = true
          · simp [hm, PaymentRow.frameFields]
          · simp [hm]
      · intro hne
        refine ⟨hc'.1, hc'.2, ?_⟩
        simp only [updateStatusAndBlob, List.getElem?_map] at hne
        cases hdb : db[i]? with
        | none => rw [hdb] at hne; exact absurd rfl hne
        | some row =>
          rw [hdb] at hne
          by_cases hm : localIdMatches (pollLocalId (opJsonOrNull r))
              row.local_id = true
          · simp [matchesBound, hm]
          · exfalso
            apply hne
            simp [hm]
    · rw [if_neg hc]
      exact ⟨rfl, fun i => ⟨rfl, fun hne => absurd rfl hne⟩⟩

/-- Witness for C6: the extraction picks the body's status, the endpoint
answers success with the raw response, and the single row keeps all frame
columns. -/
theorem c6_poll_update_frame_witness :
    pollNewStatus (.obj [("status", .str "completed")]) = JsValue.str "completed" ∧
    (pollStatus "x" "" c6Remote [demoRow]).result = .ok c6Remote ∧
    ((pollStatus "x" "" c6Remote [demoRow]).db[0]?).map PaymentRow.frameFields =
      (([demoRow] : List PaymentRow)[0]?).map PaymentRow.frameFields :=
  ⟨(c6_poll_update_frame.1 (.obj [("status", .str "completed")])).1 (by decide),
   (c6_poll_update_frame.2 "x" "" c6Remote [demoRow] (by decide)).1,
   ((c6_poll_update_frame.2 "x" "" c6Remote [demoRow] (by decide)).2 0).1⟩

/-- C5: the status stored by a successful create is "created" iff the
remote HTTP status is 200 or 201, and "pending" for every other code. -/
theorem c5_status_created_iff_200_or_201 (body : JsValue) (mu du : String)
    (r : RemoteResponse) (db : List PaymentRow) (now : Nat)
    (h : (createPayment body mu du r db now).result.isSuccess = true) :
    ∃ payeeStr : String,
      (createPayment body mu du r db now).db =
        db ++ [insertedRow body mu du r now payeeStr] ∧
      ((insertedRow body mu du r now payeeStr).status = .str "created" ↔
        (r.status = 200 ∨ r.status = 201)) ∧
      ((insertedRow body mu du r now payeeStr).status = .str "pending" ↔
        ¬ (r.status = 200 ∨ r.status = 201)) := by
  obtain ⟨s, eo, hp, heq⟩ := createPayment_success_shape body mu du r db now h
  have hstat : (insertedRow body mu du r now s).status = .str (statusTextOf r) := rfl
  by_cases hst : (r.status == 201 || r.status == 200) = true
  · have hs' : r.status = 200 ∨ r.status = 201 := by
      rw [Bool.or_eq_true, beq_iff_eq, beq_iff_eq] at hst
      tauto
    have hcreated : statusTextOf r = "created" := by
      rw [statusTextOf, if_pos hst]
    refine ⟨s, by rw [heq], ?_, ?_⟩
    · rw [hstat, hcreated]
      exact ⟨fun _ => hs', fun _ => rfl⟩
    · rw [hstat, hcreated]
      exact ⟨fun hh => absurd hh (by simp), fun hh => absurd hs' hh⟩
  · have hs' : ¬ (r.status = 200 ∨ r.status = 201) := by
      rw [Bool.or_eq_true, beq_iff_eq, beq_iff_eq] at hst
      tauto
    have hpending : statusTextOf r = "pending" := by
      rw [statusTextOf, if_neg hst]
    refine ⟨s, by rw [heq], ?_, ?_⟩
    · rw [hstat, hpending]
      exact ⟨fun hh => absurd hh (by simp), fun hh => absurd hh hs'⟩
    · rw [hstat, hpending]
      exact ⟨fun _ => hs', fun _ => rfl⟩

/-- Witness for C5: the scenario-7 inputs (HTTP 201) store "created". -/
theorem c5_status_created_iff_200_or_201_witness :
    (createPayment demoBody "uL5" "uD5" demoRemote [] 0).db.map PaymentRow.status
      = [JsValue.str "created"] := by
  obtain ⟨s, hdb, hiff, _⟩ :=
    c5_status_created_iff_200_or_201 demoBody "uL5" "uD5" demoRemote [] 0 (by decide)
  rw [hdb]
  simp only [List.nil_append, List.map_cons, List.map_nil]
  rw [hiff.mpr (Or.inr rfl)]

/-- C9: a successful create uses one and the same localId in the response
body's `localId` field, in the outbound payload's `metadata.localId`, and
in the `local_id` column of the single inserted row. -/
theorem c9_localid_consistent (body : JsValue) (mu du : String)
    (r : RemoteResponse) (db : List PaymentRow) (now : Nat)
    (h : (createPayment body mu du r db now).result.isSuccess = true) :
    (createPayment body mu du r db now).result.localIdOf = some mu ∧
    (createPayment body mu du r db now).db.map PaymentRow.local_id =
      db.map PaymentRow.local_id ++ [mu] ∧
    (createPayment body mu du r db now).calls.map callLocalId =
      [JsValue.str mu] := by
  obtain ⟨s, eo, hp, heq⟩ := createPayment_success_shape body mu du r db now h
  rw [heq]
  refine ⟨rfl, ?_, rfl⟩
  simp [insertedRow]

/-- Witness for C9 at the scenario-7 inputs. -/
theorem c9_localid_consistent_witness :
    (createPayment demoBody "uL9" "uD9" demoRemote [] 0).result.localIdOf =
      some "uL9" ∧
    (createPayment demoBody "uL9" "uD9" demoRemote [] 0).db.map
      PaymentRow.local_id = [] ++ ["uL9"] ∧
    (createPayment demoBody "uL9" "uD9" demoRemote [] 0).calls.map callLocalId =
      [JsValue.str "uL9"] := by
  have h := c9_localid_consistent demoBody "uL9" "uD9" demoRemote [] 0 (by decide)
  exact ⟨h.1, h.2.1, h.2.2⟩

/-- C3 counterexample: the response body is not parsable as JSON and a
`Location` header is present, so the claim demands that `resource_url` be
the header's first value; the code instead guards the whole extraction
with `op.json && ...`, so both the returned and the stored `resource_url`
are null. -/
theorem c3_counterexample :
    c3Remote.json = none ∧
    c3Remote.headers.lookup "location" = some ["https://wallet.example/ip/7"] ∧
    (createPayment demoBody "uL3" "uD3" c3Remote [] 0).result.resourceUrlOf =
      some JsValue.null ∧
    (createPayment demoBody "uL3" "uD3" c3Remote [] 0).db.map
      PaymentRow.resource_url = [JsValue.null] :=
  ⟨rfl, rfl, rfl, rfl⟩

/-- C3 (amended): the stored and returned `resource_url` both equal the
extraction `extractResourceUrl`, which is the JSON body's `id` when the
body parsed to a truthy value with truthy `id`; else the first `Location`
value when the body parsed to a truthy value and that header value is
truthy; else null — in particular it is null whenever the body was not
parsable as JSON, even if a `Location` header is present. -/
theorem c3_resource_url_extraction :
    (∀ op : RemoteResponse,
       (op.jsonVal.truthy = true → (op.jsonVal.get "id").truthy = true →
          extractResourceUrl op = op.jsonVal.get "id") ∧
       (op.jsonVal.truthy = true → (op.jsonVal.get "id").truthy = false →
          op.locVal.truthy = true → extractResourceUrl op = op.locVal) ∧
       (op.jsonVal.truthy = false → extractResourceUrl op = .null) ∧
       ((op.jsonVal.get "id").truthy = false → op.locVal.truthy = false →
          extractResourceUrl op = .null)) ∧
    (∀ (body : JsValue) (mu du : String) (r : RemoteResponse)
       (db : List PaymentRow) (now : Nat),
       (createPayment body mu du r db now).result.isSuccess = true →
       (createPayment body mu du r db now).result.resourceUrlOf =
         some (extractResourceUrl r) ∧
       (createPayment body mu du r db now).db.map PaymentRow.resource_url =
         db.map PaymentRow.resource_url ++ [extractResourceUrl r]) := by
  constructor
  · intro op
    refine ⟨?_, ?_, ?_, ?_⟩
    · intro hj hid
      simp only [extractResourceUrl]
      rw [jsOr_of_truthy _ _ hid, if_pos (by simp [hj, hid])]
    · intro hj hid hloc
      simp only [extractResourceUrl]
      rw [jsOr_of_falsy _ _ hid, if_pos (by simp [hj, hloc])]
    · intro hj
      simp only [extractResourceUrl]
      rw [if_neg (by simp [hj])]
    · intro hid hloc
      simp only [extractResourceUrl]
      rw [jsOr_of_falsy _ _ hid, if_neg (by simp [hloc])]
  · intro body mu du r db now h
    obtain ⟨s, eo, hp, heq⟩ := createPayment_success_shape body mu du r db now h
    rw [heq]
    exact ⟨rfl, by simp [insertedRow]⟩

/-- Witness for the amended C3: body `id` wins on the scenario-7
response, the non-JSON body of the counterexample yields null, and a
successful create returns the extraction. -/
theorem c3_resource_url_extraction_witness :
    extractResourceUrl demoRemote =
      JsValue.str "https://wallet.example/merchant/incoming-payments/abc" ∧
    extractResourceUrl c3Remote = JsValue.null ∧
    (createPayment demoBody "uLw" "uDw" demoRemote [] 0).result.resourceUrlOf =
      some (extractResourceUrl demoRemote) := by
  refine ⟨?_, (c3_resource_url_extraction.1 c3Remote).2.2.1 (by decide),
          (c3_resource_url_extraction.2 demoBody "uLw" "uDw" demoRemote [] 0
            (by decide)).1⟩
  have h := (c3_resource_url_extraction.1 demoRemote).1 (by decide) (by decide)
  rw [h]
  rfl

/-- The outbound payload carries the computed value string at
`incomingAmount.value`. -/
theorem buildPayload_value (payee currency amount memo : JsValue)
    (mu v : String) (eo : Option String) :
    ((buildPayload payee currency amount memo mu v eo).get
      "incomingAmount").get "value" = JsValue.str v := rfl

/-- The `.finite` results of the positive-rational binary64 rounding have
a nonnegative numerator and a positive denominator. -/
theorem roundPosRatToDouble_finite_ok (n d : ℕ) (g : Frac)
    (hg : roundPosRatToDouble n d = .finite g) : 0 ≤ g.num ∧ 0 < g.den := by
  simp only [roundPosRatToDouble] at hg
  split_ifs at hg <;>
    first
      | exact JsNum.noConfusion hg
      | (cases hg; exact ⟨Int.natCast_nonneg _, by positivity⟩)

/-- `toDouble64` of a nonnegative exact value is, when finite, a
nonnegative fraction with positive denominator. -/
theorem toDouble64_nonneg (f : Frac) (hnum : 0 ≤ f.num) (g : Frac)
    (hg : toDouble64 f = .finite g) : 0 ≤ g.num ∧ 0 < g.den := by
  simp only [toDouble64] at hg
  split_ifs at hg with h0 hpos
  · cases hg
    exact ⟨le_refl 0, Nat.one_pos⟩
  · exact roundPosRatToDouble_finite_ok _ _ _ hg
  · exact absurd hnum (by omega)

/-- C8 counterexample: the accepted amount "1.005" parses exactly to
1005/1000; its nearest binary64 value is slightly below 1.005, the
binary64 product with 100 is 100.49999999999999 (below the
half-integer), so the program computes `Math.round(parsed * 100) = 100`
and sends "100" — while the claim's `round(a × 100)` is 101. -/
theorem c8_counterexample :
    jsToNumber (c8Body.get "amount") = .finite ⟨1005, 1000⟩ ∧
    (createPayment c8Body "uLc" "uDc" demoRemote [] 0).result.isSuccess = true ∧
    (createPayment c8Body "uLc" "uDc" demoRemote [] 0).calls.map callMinorValue
      = [JsValue.str "100"] ∧
    (round (((1005 : ℚ) / 1000) * 100) : ℤ) = 101 := by
  refine ⟨by decide, by decide, rfl, ?_⟩
  have h1 : ((1005 : ℚ) / 1000) * 100 = 201 / 2 := by norm_num
  have h2 : (201 : ℚ) / 2 + 1 / 2 = ((101 : ℤ) : ℚ) := by norm_num
  rw [round_eq, h1, h2, Int.floor_intCast]

/-- C8 (amended): for every finite positive amount accepted by a
successful create whose binary64 value and binary64 product with 100 are
finite, the outbound `incomingAmount.value` is `Math.round` of the
IEEE-754 double product — `round p` for the exact value `p` of
`fl64(fl64(a) * 100)` — rendered as a base-10 integer numeral (every
character a decimal digit, hence no fractional part and no sign), with
`|round p - p| ≤ 1/2`; the hypothesis bounding the result below `10^21`
keeps the rendering under JS's exponent-notation threshold.  This
differs from the original claim's `round(a × 100)` exactly where
representation error moves the product across a half-integer, as at
a = 1.005. -/
theorem c8_minor_units_round (body : JsValue) (mu du : String)
    (r : RemoteResponse) (db : List PaymentRow) (now : Nat) (f g p : Frac)
    (hf : jsToNumber (body.get "amount") = .finite f)
    (hnum : 0 < f.num) (_hden : 0 < f.den)
    (hg : toDouble64 f = .finite g)
    (hp : toDouble64 (g.mul ⟨100, 1⟩) = .finite p)
    (hbound : (p.add ⟨1, 2⟩).floor < 10 ^ 21)
    (h : (createPayment body mu du r db now).result.isSuccess = true) :
    (createPayment body mu du r db now).calls.map callMinorValue =
      [JsValue.str (Nat.repr (round p.toRat).toNat)] ∧
    round p.toRat < 10 ^ 21 ∧
    |((round p.toRat : ℤ) : ℚ) - p.toRat| ≤ 1 / 2 ∧
    (∀ c ∈ (Nat.repr (round p.toRat).toNat).data, c.isDigit = true) := by
  obtain ⟨s, eo, hps, heq⟩ := createPayment_success_shape body mu du r db now h
  have hgOK := toDouble64_nonneg f (le_of_lt hnum) g hg
  have hmn : 0 ≤ (g.mul ⟨100, 1⟩).num := by
    simp only [Frac.mul]
    exact mul_nonneg hgOK.1 (by norm_num)
  have hpOK := toDouble64_nonneg (g.mul ⟨100, 1⟩) hmn p hp
  have hfloor : (p.add ⟨1, 2⟩).floor = round p.toRat := by
    rw [Frac.floor_toRat,
        Frac.toRat_add _ _ (by omega) (by decide), round_eq]
    norm_num [Frac.toRat]
  have hql : 0 ≤ p.toRat := div_nonneg (by exact_mod_cast hpOK.1) (by positivity)
  have hpos : (0 : ℤ) ≤ round p.toRat := by
    rw [round_eq]
    apply Int.le_floor.mpr
    push_cast
    linarith
  have hm : mathRound (toDoubleNum ((toDoubleNum
      (jsToNumber (body.get "amount"))).mul (.finite ⟨100, 1⟩))) =
      .finite ⟨round p.toRat, 1⟩ := by
    rw [hf]
    show mathRound (toDoubleNum ((toDouble64 f).mul (.finite ⟨100, 1⟩))) = _
    rw [hg]
    show mathRound (toDouble64 (g.mul ⟨100, 1⟩)) = _
    rw [hp]
    show JsNum.finite ⟨(p.add ⟨1, 2⟩).floor, 1⟩ = _
    rw [hfloor]
  have hstr : minorUnitsValue (jsToNumber (body.get "amount")) =
      Nat.repr (round p.toRat).toNat := by
    rw [minorUnitsValue, hm]
    show fracToString ⟨round p.toRat, 1⟩ = _
    exact fracToString_int_nonneg _ hpos
  refine ⟨?_, by rw [← hfloor]; exact hbound, ?_, ?_⟩
  · rw [heq]
    dsimp only [List.map_cons, List.map_nil, callMinorValue]
    rw [buildPayload_value, hstr]
  · rw [abs_sub_comm]
    exact abs_sub_round p.toRat
  · intro c hc
    exact natRepr_isDigit _ c hc

/-- Witness for the amended C8: amount "5.00" parses to 500/100, whose
double is exactly 5 (as the fraction 5·2^50 / 2^50) and whose double
product is exactly 500 (as 500·2^44 / 2^44), so the outbound value is
the numeral of round 500. -/
theorem c8_minor_units_round_witness :
    (createPayment demoBody "uL8" "uD8" demoRemote [] 0).calls.map callMinorValue
      = [JsValue.str (Nat.repr
          (round ((⟨8796093022208000, 17592186044416⟩ : Frac).toRat)).toNat)] ∧
    |((round ((⟨8796093022208000, 17592186044416⟩ : Frac).toRat) : ℤ) : ℚ) -
        (⟨8796093022208000, 17592186044416⟩ : Frac).toRat| ≤ 1 / 2 := by
  have h := c8_minor_units_round demoBody "uL8" "uD8" demoRemote [] 0
    ⟨500, 100⟩ ⟨5629499534213120, 1125899906842624⟩
    ⟨8796093022208000, 17592186044416⟩
    (by decide) (by decide) (by decide) (by decide) (by decide) (by decide)
    (by decide)
  exact ⟨h.1, h.2.2.1⟩
